import Mathlib

/-!
Shallow embedding of the TAsyncSocket / TAsyncSSLSocket core
(src/thrift/lib/cpp/async/TAsyncSocket.cpp, TAsyncSSLSocket.h).

Machine integers of the source (uint32_t byte counts, uint16_t cipher
codes) are modelled as Nat; the source never relies on overflow in the
code regions embedded here.  Pointers (callbacks, iovec bases) are
modelled as abstract Nat identities.  The OS (sendmsg / recv results)
is an explicit environment parameter.
-/

namespace TAsyncSocket

/-- StateEnum of TAsyncSocket: `{UNINIT, CONNECTING, ESTABLISHED, CLOSED, ERROR}`. -/
inductive StateEnum
  | UNINIT
  | CONNECTING
  | ESTABLISHED
  | CLOSED
  | ERROR
deriving DecidableEq, Repr

/-- The `shutdownFlags_` bit set: SHUT_READ, SHUT_WRITE, SHUT_WRITE_PENDING,
each modelled as one Bool field. -/
structure ShutdownFlags where
  shutRead : Bool
  shutWrite : Bool
  shutWritePending : Bool
deriving DecidableEq, Repr

/-- Bitwise `|=` on `shutdownFlags_`: every update site in the source only
ever adds bits with this operation (the sole plain assignment is
`shutdownFlags_ = 0` in `init()`). -/
def ShutdownFlags.orBits (f : ShutdownFlags) (r w p : Bool) : ShutdownFlags :=
  ⟨f.shutRead || r, f.shutWrite || w, f.shutWritePending || p⟩

/-- `eventFlags_`: the subset of `{READ, WRITE}` mirrored to the reactor. -/
structure EventFlags where
  read : Bool
  write : Bool
deriving DecidableEq, Repr

/-- WriteFlags of a write submission: CORK and EOR. -/
structure WriteFlags where
  cork : Bool
  eor : Bool
deriving DecidableEq, Repr

/-- One iovec entry: `iov_base` (abstract address) and `iov_len`. -/
structure Iovec where
  base : Nat
  len : Nat
deriving DecidableEq, Repr

/-- TTransportException error kinds used by TAsyncSocket. -/
inductive ErrKind
  | ALREADY_OPEN
  | NOT_OPEN
  | END_OF_FILE
  | TIMED_OUT
  | BAD_ARGS
  | INTERNAL_ERROR
deriving DecidableEq, Repr

/-- A TTransportException: kind plus message (a character sequence). -/
structure TTransportException where
  kind : ErrKind
  msg : List Char
deriving DecidableEq, Repr

/-- Outcome of one `::sendmsg` call, as seen by `performWrite`:
a non-negative byte count, failure with errno EAGAIN, or failure with
any other errno. -/
inductive SendResult
  | written (n : Nat)
  | eagain
  | err
deriving DecidableEq, Repr

/-- Platform IOV_MAX cap used in `performWrite` (1024 on Linux). -/
def IOV_MAX : Nat := 1024

/-- The prefix walk at the end of `performWrite`:
`for (bytesWritten = totalWritten, n = 0; n < count; ++n)` over the iovec
lengths; stops with `(n, bytesWritten)` at the first iovec whose length
exceeds the bytes still unaccounted, else subtracts and continues; after
the loop it returns `(count, 0)` (the source asserts the remainder is 0
there). -/
def writtenSplit : List Nat → Nat → Nat × Nat
  | [], _ => (0, 0)
  | l :: ls, b =>
    if b < l then (0, b)
    else
      let r := writtenSplit ls (b - l)
      (r.1 + 1, r.2)

/-- Result of one `performWrite` call: the iovec count handed to sendmsg
(`msg_iovlen`), the return value, the two out-parameters, and the updated
`appBytesWritten_` counter. -/
structure PerformWriteCall where
  iovCount : Nat
  msgMore : Bool
  msgEor : Bool
  ret : Int
  countWritten : Nat
  partialWritten : Nat
  appBytesWritten : Nat
deriving DecidableEq, Repr

/-- `TAsyncSocket::performWrite(vec, count, flags, countWritten, partialWritten)`.
`vec` is the list of iovec lengths; `send` is the outcome of the one
`::sendmsg` call (whose msg_iovlen is `min count IOV_MAX`).  On EAGAIN it
returns 0 with both out-params 0; on another errno it returns -1; on a
byte count n it bumps `appBytesWritten_` by n and walks the iovec vector
to split n into whole ops and a partial remainder. -/
def performWrite (vec : List Nat) (flags : WriteFlags) (appBytes : Nat)
    (send : SendResult) : PerformWriteCall :=
  let iovCount := min vec.length IOV_MAX
  match send with
  | .eagain => ⟨iovCount, flags.cork, flags.eor, 0, 0, 0, appBytes⟩
  | .err => ⟨iovCount, flags.cork, flags.eor, -1, 0, 0, appBytes⟩
  | .written n =>
    let s := writtenSplit vec n
    ⟨iovCount, flags.cork, flags.eor, (n : Int), s.1, s.2, appBytes + n⟩

/-- A queued WriteRequest: completion callback (nullable), the full
`writeOps_` array, progress cursors `opIndex_` / `bytesWritten_`, and the
submission flags.  (`opCount_` is `writeOps.length`; the owned IOBuf chain
is not modelled, it only keeps memory alive.) -/
structure WriteRequest where
  callback : Option Nat
  writeOps : List Iovec
  opIndex : Nat
  bytesWritten : Nat
  flags : WriteFlags
deriving DecidableEq, Repr

/-- `opCount_` of a WriteRequest. -/
def WriteRequest.opCount (r : WriteRequest) : Nat := r.writeOps.length

/-- `getOps()`: `writeOps_ + opIndex_`. -/
def WriteRequest.getOps (r : WriteRequest) : List Iovec := r.writeOps.drop r.opIndex

/-- `getOpCount()`: `opCount_ - opIndex_`. -/
def WriteRequest.getOpCount (r : WriteRequest) : Nat := r.opCount - r.opIndex

/-- Replace the element at an index of a list (no-op when out of range);
used to model the in-place iovec update of `consume`. -/
def updateNth : List Iovec → Nat → (Iovec → Iovec) → List Iovec
  | [], _, _ => []
  | x :: xs, 0, f => f x :: xs
  | x :: xs, n + 1, f => x :: updateNth xs n f

/-- The assertion `opIndex_ < opCount_` checked inside `consume` after
`opIndex_ += wholeOps`. -/
def WriteRequest.consumeOk (r : WriteRequest) (wholeOps : Nat) : Prop :=
  r.opIndex + wholeOps < r.writeOps.length

/-- `WriteRequest::consume(wholeOps, partialBytes, totalBytesWritten)`:
advances `opIndex_`, slides the new head iovec's base forward by
`partialBytes` and shrinks its length, and accumulates `bytesWritten_`.
(The source asserts `opIndex_ < opCount_` here; see `consumeOk`.) -/
def WriteRequest.consume (r : WriteRequest) (wholeOps partialBytes totalBytesWritten : Nat) :
    WriteRequest :=
  let newIndex := r.opIndex + wholeOps
  { r with
    opIndex := newIndex
    writeOps := updateNth r.writeOps newIndex
      (fun op => ⟨op.base + partialBytes, op.len - partialBytes⟩)
    bytesWritten := r.bytesWritten + totalBytesWritten }

/-! ## The socket state and its operations -/

/-- The TAsyncSocket state relevant to its state machine: `state_`,
`shutdownFlags_`, `eventFlags_`, the two nullable callbacks, the write
queue (`writeReqHead_ .. writeReqTail_` as a list), the counters, the
send timeout setting and whether `writeTimeout_` is scheduled, whether
`fd_ >= 0`, and the address decoration `withAddr` appends to messages. -/
structure Sock where
  state : StateEnum
  shutdownFlags : ShutdownFlags
  eventFlags : EventFlags
  readCallback : Option Nat
  connectCallback : Option Nat
  writeQueue : List WriteRequest
  appBytesWritten : Nat
  appBytesReceived : Nat
  sendTimeout : Nat
  writeTimeoutScheduled : Bool
  fdOpen : Bool
  addrSuffix : List Char
deriving DecidableEq, Repr

/-- A callback invocation observable at the user boundary. -/
inductive Event
  | connectSuccess (cb : Nat)
  | connectError (cb : Nat) (ex : TTransportException)
  | readEOF (cb : Nat)
  | readError (cb : Nat) (ex : TTransportException)
  | readDataAvailable (cb : Nat) (n : Nat)
  | writeSuccess (cb : Nat)
  | writeError (cb : Nat) (bytesWritten : Nat) (ex : TTransportException)
deriving DecidableEq, Repr

/-- `withAddr(s)`: appends the peer/local address description to a message. -/
def withAddr (s : Sock) (msg : List Char) : List Char := msg ++ s.addrSuffix

/-- `socketClosedLocallyEx`: END_OF_FILE "socket closed locally". -/
def socketClosedLocallyEx : TTransportException :=
  ⟨.END_OF_FILE, "socket closed locally".data⟩

/-- `socketShutdownForWritesEx`: END_OF_FILE "socket shutdown for writes". -/
def socketShutdownForWritesEx : TTransportException :=
  ⟨.END_OF_FILE, "socket shutdown for writes".data⟩

/-- The base message of the exception built in `finishFail`. -/
def closingAfterErrorMsg : List Char := "socket closing after error".data

/-- `startFail()`: move to STATE_ERROR, set SHUT_READ | SHUT_WRITE, drop all
event registration, cancel the write timeout, close the fd.  (The source
asserts `state_ != StateEnum::ERROR` on entry.) -/
def startFail (s : Sock) : Sock :=
  { s with
    state := .ERROR
    shutdownFlags := s.shutdownFlags.orBits true true false
    eventFlags := ⟨false, false⟩
    writeTimeoutScheduled := false
    fdOpen := false }

/-- `failAllWrites(ex)`: pop every queued WriteRequest, invoking
`writeError(req.bytesWritten, ex)` on each request that has a callback. -/
def failAllWrites (s : Sock) (ex : TTransportException) : Sock × List Event :=
  ({ s with writeQueue := [] },
   s.writeQueue.filterMap (fun r => r.callback.map (fun cb => Event.writeError cb r.bytesWritten ex)))

/-- `finishFail()`: build the INTERNAL_ERROR `withAddr("socket closing after
error")` exception, fire `connectError` if a connect callback is installed,
fail all queued writes with it, then fire `readError` if a read callback
is installed. -/
def finishFail (s : Sock) : Sock × List Event :=
  let ex : TTransportException := ⟨.INTERNAL_ERROR, withAddr s closingAfterErrorMsg⟩
  let connEvts := match s.connectCallback with
    | some cb => [Event.connectError cb ex]
    | none => []
  let s1 := { s with connectCallback := none }
  let p := failAllWrites s1 ex
  let readEvts := match p.1.readCallback with
    | some cb => [Event.readError cb ex]
    | none => []
  ({ p.1 with readCallback := none }, connEvts ++ p.2 ++ readEvts)

/-- `fail(fn, ex)`: `startFail()` then `finishFail()`. -/
def fail (s : Sock) : Sock × List Event := finishFail (startFail s)

/-- `failConnect(fn, ex)`: `startFail()`, fire `connectError(ex)` on the
installed connect callback first, then `finishFail()`. -/
def failConnect (s : Sock) (ex : TTransportException) : Sock × List Event :=
  let s1 := startFail s
  let evt := match s1.connectCallback with
    | some cb => [Event.connectError cb ex]
    | none => []
  let p := finishFail { s1 with connectCallback := none }
  (p.1, evt ++ p.2)

/-- `failRead(fn, ex)`: `startFail()`, fire `readError(ex)` on the installed
read callback first, then `finishFail()`. -/
def failRead (s : Sock) (ex : TTransportException) : Sock × List Event :=
  let s1 := startFail s
  let evt := match s1.readCallback with
    | some cb => [Event.readError cb ex]
    | none => []
  let p := finishFail { s1 with readCallback := none }
  (p.1, evt ++ p.2)

/-- `failWrite(fn, ex)` (queue version): `startFail()`, pop the head
WriteRequest and fire `writeError(bytesWritten, ex)` on its callback with
the actual error, then let `finishFail()` fail the remaining queue. -/
def failWrite (s : Sock) (ex : TTransportException) : Sock × List Event :=
  let s1 := startFail s
  match s1.writeQueue with
  | [] => finishFail s1
  | req :: rest =>
    let headEvt := match req.callback with
      | some cb => [Event.writeError cb req.bytesWritten ex]
      | none => []
    let p := finishFail { s1 with writeQueue := rest }
    (p.1, headEvt ++ p.2)

/-- `failWrite(fn, callback, bytesWritten, ex)` (pre-queue version, used
when the failure occurs before the request was enqueued): `startFail()`,
fire `writeError(bytesWritten, ex)` on the passed callback, `finishFail()`. -/
def failWriteNew (s : Sock) (cb : Option Nat) (bytesWritten : Nat)
    (ex : TTransportException) : Sock × List Event :=
  let s1 := startFail s
  let evt := match cb with
    | some c => [Event.writeError c bytesWritten ex]
    | none => []
  let p := finishFail s1
  (p.1, evt ++ p.2)

/-- `closeNow()`: in ESTABLISHED/CONNECTING set SHUT_READ | SHUT_WRITE, move
to STATE_CLOSED, cancel the timeout, unregister, close the fd, fire
`connectError(socketClosedLocallyEx)`, fail all writes, fire `readEOF`; in
CLOSED/ERROR do nothing; in UNINIT just set the bits and move to CLOSED. -/
def closeNow (s : Sock) : Sock × List Event :=
  match s.state with
  | .ESTABLISHED | .CONNECTING =>
    let s1 := { s with
      shutdownFlags := s.shutdownFlags.orBits true true false
      state := .CLOSED
      writeTimeoutScheduled := false
      eventFlags := ⟨false, false⟩
      fdOpen := false }
    let connEvts := match s1.connectCallback with
      | some cb => [Event.connectError cb socketClosedLocallyEx]
      | none => []
    let p := failAllWrites { s1 with connectCallback := none } socketClosedLocallyEx
    let readEvts := match p.1.readCallback with
      | some cb => [Event.readEOF cb]
      | none => []
    ({ p.1 with readCallback := none }, connEvts ++ p.2 ++ readEvts)
  | .CLOSED => (s, [])
  | .ERROR => (s, [])
  | .UNINIT =>
    ({ s with
       shutdownFlags := s.shutdownFlags.orBits true true false
       state := .CLOSED }, [])

/-- `close()`: with an empty queue or outside CONNECTING/ESTABLISHED this is
`closeNow()`; otherwise set SHUT_READ | SHUT_WRITE_PENDING, disable read
registration, and deliver a synthetic `readEOF` to an installed read
callback, deferring teardown until the queue drains. -/
def close (s : Sock) : Sock × List Event :=
  if s.writeQueue = [] ∨ ¬(s.state = .CONNECTING ∨ s.state = .ESTABLISHED) then
    closeNow s
  else
    let s1 := { s with shutdownFlags := s.shutdownFlags.orBits true false true }
    match s1.readCallback with
    | some cb =>
      ({ s1 with
         readCallback := none
         eventFlags := { s1.eventFlags with read := false } }, [Event.readEOF cb])
    | none => (s1, [])

/-- `shutdownWriteNow()`: no-op once SHUT_WRITE is set; `closeNow()` when
SHUT_READ is already set; in ESTABLISHED set SHUT_WRITE, cancel the write
timeout, drop Write interest, `shutdown(fd, SHUT_WR)` and fail all queued
writes; in CONNECTING/UNINIT set SHUT_WRITE_PENDING (failing queued writes
when CONNECTING). -/
def shutdownWriteNow (s : Sock) : Sock × List Event :=
  if s.shutdownFlags.shutWrite then (s, [])
  else if s.shutdownFlags.shutRead then closeNow s
  else
    match s.state with
    | .ESTABLISHED =>
      failAllWrites
        { s with
          shutdownFlags := s.shutdownFlags.orBits false true false
          writeTimeoutScheduled := false
          eventFlags := { s.eventFlags with write := false } }
        socketShutdownForWritesEx
    | .CONNECTING =>
      failAllWrites
        { s with shutdownFlags := s.shutdownFlags.orBits false false true }
        socketShutdownForWritesEx
    | .UNINIT =>
      ({ s with shutdownFlags := s.shutdownFlags.orBits false false true }, [])
    | .CLOSED => (s, [])
    | .ERROR => (s, [])

/-- `shutdownWrite()`: with an empty queue this is `shutdownWriteNow()`;
otherwise just set SHUT_WRITE_PENDING. -/
def shutdownWrite (s : Sock) : Sock × List Event :=
  if s.writeQueue = [] then shutdownWriteNow s
  else ({ s with shutdownFlags := s.shutdownFlags.orBits false false true }, [])

/-- The NOT_OPEN exception of `invalidState(ReadCallback*)`. -/
def invalidReadEx : TTransportException :=
  ⟨.NOT_OPEN, "setReadCallback() called with socket in invalid state".data⟩

/-- `invalidState(ReadCallback* callback)`: in CLOSED/ERROR just report
NOT_OPEN to the passed callback; otherwise `startFail()`, report to the
passed callback, `finishFail()`. -/
def invalidStateRead (s : Sock) (cb : Option Nat) : Sock × List Event :=
  let evt := match cb with
    | some c => [Event.readError c invalidReadEx]
    | none => []
  if s.state = .CLOSED ∨ s.state = .ERROR then (s, evt)
  else
    let p := finishFail (startFail s)
    (p.1, evt ++ p.2)

/-- `setReadCallback(callback)`: short-circuit when unchanged; after
SHUT_READ only null is accepted (a non-null callback goes to
`invalidState`); in CONNECTING the callback is stored for later; in
ESTABLISHED it is stored and Read registration mirrors its presence;
any other state goes to `invalidState`. -/
def setReadCallback (s : Sock) (cb : Option Nat) : Sock × List Event :=
  if cb = s.readCallback then (s, [])
  else if s.shutdownFlags.shutRead then
    match cb with
    | some _ => invalidStateRead s cb
    | none => ({ s with readCallback := none }, [])
  else
    match s.state with
    | .CONNECTING => ({ s with readCallback := cb }, [])
    | .ESTABLISHED =>
      ({ s with
         readCallback := cb
         eventFlags := { s.eventFlags with read := cb.isSome } }, [])
    | .CLOSED => invalidStateRead s cb
    | .ERROR => invalidStateRead s cb
    | .UNINIT => invalidStateRead s cb

/-- The NOT_OPEN exception of `invalidState(WriteCallback*)`. -/
def invalidWriteEx (s : Sock) : TTransportException :=
  ⟨.NOT_OPEN, withAddr s "write() called with socket in invalid state".data⟩

/-- `invalidState(WriteCallback* callback)`: in CLOSED/ERROR just report
`writeError(0, NOT_OPEN)` to the passed callback; otherwise `startFail()`,
report, `finishFail()`. -/
def invalidStateWrite (s : Sock) (cb : Option Nat) : Sock × List Event :=
  let evt := match cb with
    | some c => [Event.writeError c 0 (invalidWriteEx s)]
    | none => []
  if s.state = .CLOSED ∨ s.state = .ERROR then (s, evt)
  else
    let p := finishFail (startFail s)
    (p.1, evt ++ p.2)

/-- The ALREADY_OPEN exception of `invalidState(ConnectCallback*)`. -/
def invalidConnectEx : TTransportException :=
  ⟨.ALREADY_OPEN, "connect() called with socket in invalid state".data⟩

/-- `invalidState(ConnectCallback* callback)`. -/
def invalidStateConnect (s : Sock) (cb : Option Nat) : Sock × List Event :=
  let evt := match cb with
    | some c => [Event.connectError c invalidConnectEx]
    | none => []
  if s.state = .CLOSED ∨ s.state = .ERROR then (s, evt)
  else
    let p := finishFail (startFail s)
    (p.1, evt ++ p.2)

/-- `writeImpl(callback, vec, count, ioBuf, flags)`.  `send` is the outcome
of the immediate `performWrite` attempt, consulted only on the
ESTABLISHED / empty-queue path.  Mirrors the source: fail through
`invalidState` when SHUT_WRITE or SHUT_WRITE_PENDING is set; in
ESTABLISHED with an empty queue attempt an immediate write (full
completion invokes `writeSuccess` inline, a sendmsg error goes to the
pre-queue `failWrite`); otherwise (partial write, writes already queued,
or still CONNECTING) append a WriteRequest holding the unwritten suffix,
`consume`d by the partial progress, registering Write interest and
arming the send timeout when the immediate attempt left data over. -/
def writeImpl (s : Sock) (cb : Option Nat) (vec : List Iovec) (flags : WriteFlags)
    (send : SendResult) : Sock × List Event :=
  if s.shutdownFlags.shutWrite ∨ s.shutdownFlags.shutWritePending then
    invalidStateWrite s cb
  else if s.state = .ESTABLISHED then
    if s.writeQueue = [] then
      let pw := performWrite (vec.map Iovec.len) flags s.appBytesWritten send
      if pw.ret < 0 then
        failWriteNew s cb 0 ⟨.INTERNAL_ERROR, withAddr s "writev failed".data⟩
      else if pw.countWritten = vec.length then
        ({ s with appBytesWritten := pw.appBytesWritten },
         match cb with
         | some c => [Event.writeSuccess c]
         | none => [])
      else
        let req : WriteRequest :=
          (⟨cb, vec.drop pw.countWritten, 0, 0, flags⟩ : WriteRequest).consume
            0 pw.partialWritten pw.ret.toNat
        ({ s with
           appBytesWritten := pw.appBytesWritten
           writeQueue := [req]
           eventFlags := { s.eventFlags with write := true }
           writeTimeoutScheduled :=
             if s.sendTimeout > 0 then true else s.writeTimeoutScheduled }, [])
    else
      let req : WriteRequest := (⟨cb, vec, 0, 0, flags⟩ : WriteRequest).consume 0 0 0
      ({ s with writeQueue := s.writeQueue ++ [req] }, [])
  else if s.state = .CONNECTING then
    let req : WriteRequest := (⟨cb, vec, 0, 0, flags⟩ : WriteRequest).consume 0 0 0
    ({ s with writeQueue := s.writeQueue ++ [req] }, [])
  else
    invalidStateWrite s cb

/-- The state update when `handleWrite()` finishes its head request: pop
it and, when the queue thereby empties, drop Write interest, cancel the
send timer, and promote SHUT_WRITE_PENDING to SHUT_WRITE — fully closing
to STATE_CLOSED (and closing the fd) when SHUT_READ is also set, else
issuing `shutdown(fd, SHUT_WR)`. -/
def popFinishedRequest (s : Sock) (tail : List WriteRequest) (newApp : Nat) : Sock :=
  let s1 := { s with writeQueue := tail, appBytesWritten := newApp }
  if tail = [] then
    let sA := { s1 with
      eventFlags := { s1.eventFlags with write := false }
      writeTimeoutScheduled := false }
    if sA.shutdownFlags.shutWritePending then
      let sB := { sA with shutdownFlags := sA.shutdownFlags.orBits false true false }
      if sB.shutdownFlags.shutRead then
        { sB with state := .CLOSED, fdOpen := false }
      else sB
    else sA
  else s1

/-- The state update of handleWrite's partial-progress branch: `consume`
the head by the progress made, ensure Write registration, and re-arm the
send timeout when one is configured. -/
def partialProgress (s : Sock) (req' : WriteRequest) (tail : List WriteRequest)
    (newApp : Nat) : Sock :=
  { s with
    writeQueue := req' :: tail
    appBytesWritten := newApp
    eventFlags := { s.eventFlags with write := true }
    writeTimeoutScheduled :=
      if s.sendTimeout > 0 then true else s.writeTimeoutScheduled }

/-- The body of the `handleWrite()` loop, iterating one `::sendmsg` outcome
per element of `outs` (a shorter list models the loop being cut off by a
reactor detach).  Each iteration: take the head request, add CORK when
another request follows, `performWrite` its remaining ops; on a sendmsg
error `failWrite`; on finishing the request `popFinishedRequest`, fire
`writeSuccess`, and continue; on partial progress `partialProgress` and
stop. -/
def handleWriteLoop : Sock → List SendResult → Sock × List Event
  | s, [] => (s, [])
  | s, out :: rest =>
    match s.writeQueue with
    | [] => (s, [])
    | req :: tail =>
      let writeFlags := if tail ≠ [] then { req.flags with cork := true } else req.flags
      let pw := performWrite (req.getOps.map Iovec.len) writeFlags s.appBytesWritten out
      if pw.ret < 0 then
        failWrite s ⟨.INTERNAL_ERROR, withAddr s "writev() failed".data⟩
      else if pw.countWritten = req.getOpCount then
        let s2 := popFinishedRequest s tail pw.appBytesWritten
        let evt := match req.callback with
          | some cb => [Event.writeSuccess cb]
          | none => []
        let p := handleWriteLoop s2 rest
        (p.1, evt ++ p.2)
      else
        (partialProgress s (req.consume pw.countWritten pw.partialWritten pw.ret.toNat)
          tail pw.appBytesWritten, [])

/-- Outcome of one iteration of the `handleRead()` loop: a bad or empty
read buffer, or the `performRead` result (a positive byte count together
with the buffer length offered, blocking, EOF, or a recv error). -/
inductive ReadResult
  | badBuffer
  | data (n : Nat) (buflen : Nat)
  | blocked
  | eof
  | err
deriving DecidableEq, Repr

/-- The body of the `handleRead()` loop, iterating one outcome per element
of `outs` (a shorter list models `maxReadsPerEvent_` or a detach cutting
the loop off).  On data: bump `appBytesReceived_`, deliver
`readDataAvailable`, stop early when the buffer was not filled; on
blocking stop; on EOF set SHUT_READ, drop Read registration, deliver
`readEOF`; on errors `failRead`. -/
def handleReadLoop : Sock → List ReadResult → Sock × List Event
  | s, [] => (s, [])
  | s, out :: rest =>
    match s.readCallback with
    | none => (s, [])
    | some cb =>
      match out with
      | .badBuffer =>
        failRead s ⟨.BAD_ARGS, "ReadCallback::getReadBuffer() returned empty buffer".data⟩
      | .data n buflen =>
        let s1 := { s with appBytesReceived := s.appBytesReceived + n }
        if n < buflen then (s1, [Event.readDataAvailable cb n])
        else
          let p := handleReadLoop s1 rest
          (p.1, Event.readDataAvailable cb n :: p.2)
      | .blocked => (s, [])
      | .err => failRead s ⟨.INTERNAL_ERROR, withAddr s "recv() failed".data⟩
      | .eof =>
        ({ s with
           shutdownFlags := s.shutdownFlags.orBits true false false
           eventFlags := { s.eventFlags with read := false }
           readCallback := none }, [Event.readEOF cb])

/-- `handleConnect()`: cancel the connect timeout, clear the one-shot Write
registration, read SO_ERROR (`soError`, an environment input).  Non-zero
fails with NOT_OPEN "connect failed"; zero moves to ESTABLISHED,
immediately shuts down writes when SHUT_WRITE_PENDING is set with an
empty queue, fires `connectSuccess`, and (via `handleInitialReadWrite`)
mirrors Read registration to the read callback's presence.  Pending
writes queued by the callback are drained by a subsequent `handleWrite`
step. -/
def handleConnect (s : Sock) (soError : Nat) : Sock × List Event :=
  let s0 := { s with writeTimeoutScheduled := false, eventFlags := ⟨false, false⟩ }
  if soError ≠ 0 then failConnect s0 ⟨.NOT_OPEN, "connect failed".data⟩
  else
    let s1 := { s0 with state := .ESTABLISHED }
    let s2 :=
      if s1.shutdownFlags.shutWritePending ∧ s1.writeQueue = [] then
        { s1 with shutdownFlags := s1.shutdownFlags.orBits false true false }
      else s1
    let evt := match s2.connectCallback with
      | some cb => [Event.connectSuccess cb]
      | none => []
    let s3 := { s2 with connectCallback := none }
    ({ s3 with eventFlags := { s3.eventFlags with read := s3.readCallback.isSome } }, evt)

/-- How the `::connect` syscall inside `TAsyncSocket::connect` resolves:
EINPROGRESS, immediate success, or any of the failure/throw paths. -/
inductive ConnectOutcome
  | inProgress
  | immediate
  | failure
deriving DecidableEq, Repr

/-- `connect(callback, address, timeout, ...)`: only legal from UNINIT
(otherwise `invalidState`); moves to CONNECTING, creates the fd; on
EINPROGRESS schedules the connect timeout (when non-zero) and registers
one-shot Write readiness; on immediate success moves to ESTABLISHED and
fires `connectSuccess`; on failure `failConnect`. -/
def connect (s : Sock) (cb : Option Nat) (timeout : Nat) (out : ConnectOutcome) :
    Sock × List Event :=
  if s.state ≠ .UNINIT then invalidStateConnect s cb
  else
    let s1 := { s with state := .CONNECTING, connectCallback := cb, fdOpen := true }
    match out with
    | .inProgress =>
      ({ s1 with
         writeTimeoutScheduled := timeout > 0
         eventFlags := ⟨false, true⟩ }, [])
    | .immediate =>
      let s2 := { s1 with state := .ESTABLISHED }
      match cb with
      | some c => ({ s2 with connectCallback := none }, [Event.connectSuccess c])
      | none => (s2, [])
    | .failure => failConnect s1 ⟨.NOT_OPEN, "connect failed (immediately)".data⟩

/-- `timeoutExpired()`: in CONNECTING fail the connect with TIMED_OUT
"connect timed out"; otherwise (the source asserts ESTABLISHED) fail the
write with TIMED_OUT "write timed out". -/
def timeoutExpired (s : Sock) : Sock × List Event :=
  if s.state = .CONNECTING then
    failConnect s ⟨.TIMED_OUT, "connect timed out".data⟩
  else
    failWrite s ⟨.TIMED_OUT, "write timed out".data⟩

/-- The socket fields set by `init()`: flags cleared, STATE_UNINIT, no
registration, no callbacks, empty queue, zeroed counters. -/
def initSock (addr : List Char) : Sock :=
  { state := .UNINIT
    shutdownFlags := ⟨false, false, false⟩
    eventFlags := ⟨false, false⟩
    readCallback := none
    connectCallback := none
    writeQueue := []
    appBytesWritten := 0
    appBytesReceived := 0
    sendTimeout := 0
    writeTimeoutScheduled := false
    fdOpen := false
    addrSuffix := addr }

/-- The constructor taking an already-connected fd: `init()` then
`fd_ = fd; state_ = StateEnum::ESTABLISHED`. -/
def fdSock (addr : List Char) : Sock :=
  { initSock addr with state := .ESTABLISHED, fdOpen := true }

/-- One step of the socket: a public operation or an internal event
handler, with its environment inputs (callback identities, syscall
outcomes) chosen arbitrarily.  Preconditions mirror the assertions at
the head of the internal handlers. -/
inductive Step : Sock → Sock → Prop
  | connect (s : Sock) (cb : Option Nat) (timeout : Nat) (out : ConnectOutcome) :
      Step s (TAsyncSocket.connect s cb timeout out).1
  | setReadCallback (s : Sock) (cb : Option Nat) :
      Step s (TAsyncSocket.setReadCallback s cb).1
  | writeImpl (s : Sock) (cb : Option Nat) (vec : List Iovec) (flags : WriteFlags)
      (send : SendResult) : Step s (TAsyncSocket.writeImpl s cb vec flags send).1
  | close (s : Sock) : Step s (TAsyncSocket.close s).1
  | closeNow (s : Sock) : Step s (TAsyncSocket.closeNow s).1
  | shutdownWrite (s : Sock) : Step s (TAsyncSocket.shutdownWrite s).1
  | shutdownWriteNow (s : Sock) : Step s (TAsyncSocket.shutdownWriteNow s).1
  | handleWrite (s : Sock) (outs : List SendResult) (h1 : s.state = .ESTABLISHED)
      (h2 : s.shutdownFlags.shutWrite = false) (h3 : s.writeQueue ≠ []) :
      Step s (handleWriteLoop s outs).1
  | handleRead (s : Sock) (outs : List ReadResult) (h1 : s.state = .ESTABLISHED)
      (h2 : s.shutdownFlags.shutRead = false) :
      Step s (handleReadLoop s outs).1
  | handleConnect (s : Sock) (soError : Nat) (h : s.state = .CONNECTING) :
      Step s (TAsyncSocket.handleConnect s soError).1
  | timeoutExpired (s : Sock) (h : s.state ≠ .ERROR) :
      Step s (TAsyncSocket.timeoutExpired s).1
  | fail (s : Sock) (h : s.state ≠ .ERROR) : Step s (TAsyncSocket.fail s).1
  | failConnect (s : Sock) (ex : TTransportException) (h : s.state ≠ .ERROR) :
      Step s (TAsyncSocket.failConnect s ex).1
  | failRead (s : Sock) (ex : TTransportException) (h : s.state ≠ .ERROR) :
      Step s (TAsyncSocket.failRead s ex).1
  | failWrite (s : Sock) (ex : TTransportException) (h : s.state ≠ .ERROR) :
      Step s (TAsyncSocket.failWrite s ex).1

/-- The states a TAsyncSocket can be in: an initial state (fresh `init()`,
or constructed around an already-connected fd) or any state one `Step`
away from a reachable one. -/
inductive Reachable : Sock → Prop
  | init (addr : List Char) : Reachable (initSock addr)
  | fromFd (addr : List Char) : Reachable (fdSock addr)
  | step {s s' : Sock} : Reachable s → Step s s' → Reachable s'

/-- The write-callback events (writeSuccess / writeError) of an event list. -/
def isWriteCallbackEvent : Event → Bool
  | .writeSuccess _ => true
  | .writeError _ _ _ => true
  | _ => false

/-- `writeChainImpl(callback, vec, count, buf, flags)`: the loop walking the
IOBuf chain once, materialising one iovec per chain element (data pointer
and length, here the element's byte list) but advancing the output index
`i` only for elements of non-zero length; the prefix `vec[0..i)` together
with the count `i` is what it hands to `writeImpl`.  This function returns
that prefix. -/
def writeChainImpl : List (List Nat) → List (List Nat)
  | [] => []
  | b :: rest => if b.length ≠ 0 then b :: writeChainImpl rest else writeChainImpl rest

/-- One lowercase hex digit, as `std::hex` renders it. -/
def hexDigit (n : Nat) : Char :=
  if n < 10 then Char.ofNat (48 + n) else Char.ofNat (87 + n)

/-- `std::setfill('0') << std::setw(4) << std::hex` applied to a `uint16_t`
cipher code: exactly four lowercase hex digits, zero padded. -/
def toHex4 (c : Nat) : List Char :=
  [hexDigit (c / 4096 % 16), hexDigit (c / 256 % 16), hexDigit (c / 16 % 16),
   hexDigit (c % 16)]

/-- How `getSSLClientCiphers` renders one advertised cipher-suite code:
`lookup` models `get_cipher_by_char` on the server's TLS method composed
with `SSL_CIPHER_get_name`; an unrecognized code (lookup misses) is
rendered as its four hex digits. -/
def renderCipher (lookup : Nat → Option (List Char)) (c : Nat) : List Char :=
  match lookup c with
  | some name => name
  | none => toHex4 c

/-- `TAsyncSSLSocket::getSSLClientCiphers`: empty unless ClientHello parsing
is enabled and the parsed cipher-suite list is non-empty; otherwise the
stringstream accumulation `name-or-hex ++ ":"` per advertised suite, with
the final character erased (`clientCiphers.erase(clientCiphers.end() - 1)`). -/
def getSSLClientCiphers (parseClientHello : Bool) (suites : List Nat)
    (lookup : Nat → Option (List Char)) : List Char :=
  if parseClientHello = false ∨ suites = [] then []
  else (suites.foldl (fun acc c => acc ++ renderCipher lookup c ++ [':']) []).dropLast

/-- Separator-joined rendering with no trailing separator (the behaviour of
`folly::join(":", xs)`, and the form the spec describes for
`getSSLClientCiphers`). -/
def joinColon : List (List Char) → List Char
  | [] => []
  | [x] => x
  | x :: y :: rest => x ++ ':' :: joinColon (y :: rest)

/-- `TAsyncSSLSocket::getSSLClientComprMethods`: empty unless parsing is
enabled, else `folly::join(":", clientHelloCompressionMethods_)` with the
`uint8_t` values rendered in decimal. -/
def getSSLClientComprMethods (parseClientHello : Bool) (methods : List Nat) : List Char :=
  if parseClientHello = false then []
  else joinColon (methods.map (fun n => (Nat.repr n).data))

/-- `TAsyncSSLSocket::getSSLClientExts`: empty unless parsing is enabled,
else `folly::join(":", clientHelloExtensions_)` with the `uint16_t` values
rendered in decimal. -/
def getSSLClientExts (parseClientHello : Bool) (exts : List Nat) : List Char :=
  if parseClientHello = false then []
  else joinColon (exts.map (fun n => (Nat.repr n).data))

/-- A concrete two-iovec WriteRequest (callback 1, two 8-byte ranges, no
progress yet), used in concrete evaluations. -/
def sampleWriteRequest : WriteRequest :=
  ⟨some 1, [⟨0, 8⟩, ⟨0, 8⟩], 0, 0, ⟨false, false⟩⟩

/-- An ESTABLISHED socket with `sampleWriteRequest` queued, used in concrete
evaluations. -/
def sampleSock : Sock :=
  { initSock [] with
    state := .ESTABLISHED
    fdOpen := true
    writeQueue := [sampleWriteRequest]
    eventFlags := ⟨false, true⟩ }

/-- A second concrete WriteRequest (callback 2), queued behind
`sampleWriteRequest` in concrete evaluations. -/
def sampleWriteRequest2 : WriteRequest :=
  ⟨some 2, [⟨0, 4⟩], 0, 0, ⟨false, false⟩⟩

/-- An ESTABLISHED socket with two requests queued, used in concrete
evaluations. -/
def sampleSock2 : Sock :=
  { sampleSock with writeQueue := [sampleWriteRequest, sampleWriteRequest2] }

/-- A socket whose read side has been shut down (`readEOF` received on a
fresh socket would leave this shape), used in concrete evaluations. -/
def sampleShutReadSock : Sock :=
  { initSock [] with shutdownFlags := ⟨true, false, false⟩ }

/-- A concrete cipher-name table (two recognized codes, everything else
unknown), used as the environment of concrete evaluations. -/
def sampleCipherNames (c : Nat) : Option (List Char) :=
  if c = 0x009C then some "AES128-GCM-SHA256".data
  else if c = 0xC02F then some "ECDHE-RSA-AES128-GCM-SHA256".data
  else none

/-! ## Shutdown-flag lemmas -/

/-- Bitset inclusion on `shutdownFlags_`. -/
def flagsLe (a b : ShutdownFlags) : Prop :=
  (a.shutRead = true → b.shutRead = true) ∧
  (a.shutWrite = true → b.shutWrite = true) ∧
  (a.shutWritePending = true → b.shutWritePending = true)

/-- The invariant that CLOSED and ERROR states carry SHUT_READ and
SHUT_WRITE. -/
def StateFlagsOK (s : Sock) : Prop :=
  (s.state = .CLOSED ∨ s.state = .ERROR) →
    s.shutdownFlags.shutRead = true ∧ s.shutdownFlags.shutWrite = true

theorem flagsLe_refl (a : ShutdownFlags) : flagsLe a a := ⟨id, id, id⟩

theorem flagsLe_trans {a b c : ShutdownFlags} (h1 : flagsLe a b) (h2 : flagsLe b c) :
    flagsLe a c :=
  ⟨fun h => h2.1 (h1.1 h), fun h => h2.2.1 (h1.2.1 h), fun h => h2.2.2 (h1.2.2 h)⟩

theorem flagsLe_orBits (a : ShutdownFlags) (r w p : Bool) : flagsLe a (a.orBits r w p) := by
  refine ⟨?_, ?_, ?_⟩ <;> intro h <;> simp [ShutdownFlags.orBits, h]

theorem orBits_false (a : ShutdownFlags) : a.orBits false false false = a := by
  cases a; simp [ShutdownFlags.orBits]

/-- Preservation of both shutdown-flag facts along one transition. -/
structure Preserves (s t : Sock) : Prop where
  ok : StateFlagsOK s → StateFlagsOK t
  mono : flagsLe s.shutdownFlags t.shutdownFlags

theorem Preserves.rfl {s : Sock} : Preserves s s := ⟨id, flagsLe_refl _⟩

theorem Preserves.trans {a b c : Sock} (h1 : Preserves a b) (h2 : Preserves b c) :
    Preserves a c :=
  ⟨fun h => h2.ok (h1.ok h), flagsLe_trans h1.mono h2.mono⟩

theorem preserves_gen {s t : Sock} {r w p : Bool}
    (hflags : t.shutdownFlags = s.shutdownFlags.orBits r w p)
    (hok : (t.state = .CLOSED ∨ t.state = .ERROR) →
      (s.state = .CLOSED ∨ s.state = .ERROR) ∨
      ((s.shutdownFlags.shutRead || r) = true ∧ (s.shutdownFlags.shutWrite || w) = true)) :
    Preserves s t := by
  constructor
  · intro hs ht
    rcases hok ht with hcase | hbits
    · rcases hs hcase with ⟨h1, h2⟩
      simp [hflags, ShutdownFlags.orBits, h1, h2]
    · exact ⟨by simp [hflags, ShutdownFlags.orBits, hbits.1],
        by simp [hflags, ShutdownFlags.orBits, hbits.2]⟩
  · rw [hflags]; exact flagsLe_orBits _ _ _ _

theorem preserves_or_same_state {s t : Sock} {r w p : Bool}
    (hstate : t.state = s.state)
    (hflags : t.shutdownFlags = s.shutdownFlags.orBits r w p) : Preserves s t :=
  preserves_gen hflags (fun ht => Or.inl (hstate ▸ ht))

theorem preserves_id {s t : Sock} (hstate : t.state = s.state)
    (hflags : t.shutdownFlags = s.shutdownFlags) : Preserves s t :=
  preserves_or_same_state hstate (by rw [hflags, orBits_false])

theorem preserves_both_bits {s t : Sock} {p : Bool}
    (hflags : t.shutdownFlags = s.shutdownFlags.orBits true true p) : Preserves s t :=
  preserves_gen hflags (fun _ => Or.inr ⟨by simp, by simp⟩)

theorem preserves_vacuous {s t : Sock} (hflags : t.shutdownFlags = s.shutdownFlags)
    (hstate : ¬(t.state = .CLOSED ∨ t.state = .ERROR)) : Preserves s t :=
  preserves_gen (r := false) (w := false) (p := false) (by rw [hflags, orBits_false])
    (fun ht => absurd ht hstate)

/-! ## Per-operation preservation lemmas -/

theorem preserves_fail (s : Sock) : Preserves s (fail s).1 :=
  preserves_both_bits rfl

theorem preserves_failConnect (s : Sock) (ex : TTransportException) :
    Preserves s (failConnect s ex).1 :=
  preserves_both_bits rfl

theorem preserves_failRead (s : Sock) (ex : TTransportException) :
    Preserves s (failRead s ex).1 :=
  preserves_both_bits rfl

theorem preserves_failWriteNew (s : Sock) (cb : Option Nat) (b : Nat)
    (ex : TTransportException) : Preserves s (failWriteNew s cb b ex).1 :=
  preserves_both_bits rfl

theorem failWrite_fst (s : Sock) (ex : TTransportException) :
    (failWrite s ex).1 = (fail s).1 := by
  unfold failWrite fail
  dsimp only
  split <;> rfl

theorem preserves_failWrite (s : Sock) (ex : TTransportException) :
    Preserves s (failWrite s ex).1 := by
  rw [failWrite_fst]; exact preserves_fail s

theorem invalidStateRead_fst (s : Sock) (cb : Option Nat) :
    (invalidStateRead s cb).1 =
      if s.state = .CLOSED ∨ s.state = .ERROR then s else (fail s).1 := by
  unfold invalidStateRead fail
  cases cb <;> dsimp only <;> split <;> rfl

theorem preserves_invalidStateRead (s : Sock) (cb : Option Nat) :
    Preserves s (invalidStateRead s cb).1 := by
  rw [invalidStateRead_fst]
  split
  · exact Preserves.rfl
  · exact preserves_fail s

theorem invalidStateWrite_fst (s : Sock) (cb : Option Nat) :
    (invalidStateWrite s cb).1 =
      if s.state = .CLOSED ∨ s.state = .ERROR then s else (fail s).1 := by
  unfold invalidStateWrite fail
  cases cb <;> dsimp only <;> split <;> rfl

theorem preserves_invalidStateWrite (s : Sock) (cb : Option Nat) :
    Preserves s (invalidStateWrite s cb).1 := by
  rw [invalidStateWrite_fst]
  split
  · exact Preserves.rfl
  · exact preserves_fail s

theorem invalidStateConnect_fst (s : Sock) (cb : Option Nat) :
    (invalidStateConnect s cb).1 =
      if s.state = .CLOSED ∨ s.state = .ERROR then s else (fail s).1 := by
  unfold invalidStateConnect fail
  cases cb <;> dsimp only <;> split <;> rfl

theorem preserves_invalidStateConnect (s : Sock) (cb : Option Nat) :
    Preserves s (invalidStateConnect s cb).1 := by
  rw [invalidStateConnect_fst]
  split
  · exact Preserves.rfl
  · exact preserves_fail s

theorem preserves_closeNow (s : Sock) : Preserves s (closeNow s).1 := by
  unfold closeNow
  split
  · exact preserves_both_bits rfl
  · exact preserves_both_bits rfl
  · exact Preserves.rfl
  · exact Preserves.rfl
  · exact preserves_both_bits rfl

theorem preserves_close (s : Sock) : Preserves s (close s).1 := by
  unfold close
  split
  · exact preserves_closeNow s
  · dsimp only
    split
    · exact preserves_or_same_state rfl rfl
    · exact preserves_or_same_state rfl rfl

theorem preserves_shutdownWriteNow (s : Sock) : Preserves s (shutdownWriteNow s).1 := by
  unfold shutdownWriteNow
  split
  · exact Preserves.rfl
  · split
    · exact preserves_closeNow s
    · split
      · exact preserves_or_same_state rfl rfl
      · exact preserves_or_same_state rfl rfl
      · exact preserves_or_same_state rfl rfl
      · exact Preserves.rfl
      · exact Preserves.rfl

theorem preserves_shutdownWrite (s : Sock) : Preserves s (shutdownWrite s).1 := by
  unfold shutdownWrite
  split
  · exact preserves_shutdownWriteNow s
  · exact preserves_or_same_state rfl rfl

theorem preserves_setReadCallback (s : Sock) (cb : Option Nat) :
    Preserves s (setReadCallback s cb).1 := by
  unfold setReadCallback
  dsimp only
  repeat' split
  all_goals first
    | exact preserves_id rfl rfl
    | exact preserves_invalidStateRead s _

theorem preserves_writeImpl (s : Sock) (cb : Option Nat) (vec : List Iovec)
    (flags : WriteFlags) (send : SendResult) :
    Preserves s (writeImpl s cb vec flags send).1 := by
  unfold writeImpl
  dsimp only
  repeat' split
  all_goals first
    | exact preserves_id rfl rfl
    | exact preserves_invalidStateWrite s _
    | exact preserves_failWriteNew s _ 0 _

theorem preserves_popFinishedRequest (s : Sock) (tail : List WriteRequest) (newApp : Nat) :
    Preserves s (popFinishedRequest s tail newApp) := by
  unfold popFinishedRequest
  dsimp only
  split
  · split
    · split
      · rename_i hrd
        refine preserves_gen (r := false) (w := true) (p := false) rfl ?_
        intro _
        refine Or.inr ⟨?_, by simp⟩
        simpa [ShutdownFlags.orBits] using hrd
      · exact preserves_or_same_state rfl rfl
    · exact preserves_id rfl rfl
  · exact preserves_id rfl rfl

theorem preserves_handleWriteLoop (s : Sock) (outs : List SendResult) :
    Preserves s (handleWriteLoop s outs).1 := by
  induction outs generalizing s with
  | nil => exact Preserves.rfl
  | cons out rest ih =>
    rw [handleWriteLoop]
    dsimp only
    repeat' split
    all_goals first
      | exact Preserves.rfl
      | exact preserves_id rfl rfl
      | exact preserves_failWrite s _
      | exact Preserves.trans (preserves_popFinishedRequest s _ _) (ih _)

theorem preserves_handleReadLoop (s : Sock) (outs : List ReadResult) :
    Preserves s (handleReadLoop s outs).1 := by
  induction outs generalizing s with
  | nil => exact Preserves.rfl
  | cons out rest ih =>
    rw [handleReadLoop]
    dsimp only
    repeat' split
    all_goals first
      | exact preserves_id rfl rfl
      | exact preserves_failRead s _
      | exact preserves_or_same_state rfl rfl
      | (refine Preserves.trans ?_ (ih _); exact preserves_id rfl rfl)

theorem preserves_handleConnect (s : Sock) (soError : Nat) :
    Preserves s (handleConnect s soError).1 := by
  unfold handleConnect
  dsimp only
  split
  · refine Preserves.trans ?_ (preserves_failConnect _ _)
    exact preserves_id rfl rfl
  · split
    · refine preserves_gen (r := false) (w := true) (p := false) rfl ?_
      intro ht; rcases ht with ht | ht <;> exact absurd ht (by simp)
    · refine preserves_gen (r := false) (w := false) (p := false)
        (by rw [orBits_false]) ?_
      intro ht; rcases ht with ht | ht <;> exact absurd ht (by simp)

theorem preserves_connect (s : Sock) (cb : Option Nat) (timeout : Nat)
    (out : ConnectOutcome) : Preserves s (connect s cb timeout out).1 := by
  unfold connect
  dsimp only
  split
  · exact preserves_invalidStateConnect s _
  · split
    · exact preserves_vacuous rfl (by simp)
    · split
      · exact preserves_vacuous rfl (by simp)
      · exact preserves_vacuous rfl (by simp)
    · refine Preserves.trans ?_ (preserves_failConnect _ _)
      exact preserves_vacuous rfl (by simp)

theorem preserves_timeoutExpired (s : Sock) : Preserves s (timeoutExpired s).1 := by
  unfold timeoutExpired
  split
  · apply preserves_failConnect
  · apply preserves_failWrite

/-- Every step of the socket preserves both shutdown-flag facts. -/
theorem step_preserves {s t : Sock} (h : Step s t) : Preserves s t := by
  cases h with
  | connect cb timeout out => exact preserves_connect _ cb timeout out
  | setReadCallback cb => exact preserves_setReadCallback _ cb
  | writeImpl cb vec flags send => exact preserves_writeImpl _ cb vec flags send
  | close => exact preserves_close _
  | closeNow => exact preserves_closeNow _
  | shutdownWrite => exact preserves_shutdownWrite _
  | shutdownWriteNow => exact preserves_shutdownWriteNow _
  | handleWrite outs h1 h2 h3 => exact preserves_handleWriteLoop _ outs
  | handleRead outs h1 h2 => exact preserves_handleReadLoop _ outs
  | handleConnect soError h => exact preserves_handleConnect _ soError
  | timeoutExpired h => exact preserves_timeoutExpired _
  | fail h => exact preserves_fail _
  | failConnect ex h => exact preserves_failConnect _ ex
  | failRead ex h => exact preserves_failRead _ ex
  | failWrite ex h => exact preserves_failWrite _ ex

/-! ## Reachable-state invariants -/

/-- C1: Reachable-state invariant: whenever the socket's state is CLOSED or
ERROR, both the SHUT_READ and SHUT_WRITE shutdown flags are set.  Every
transition into CLOSED (`closeNow`, the SHUT_WRITE_PENDING promotion in
`handleWrite`) or into ERROR (`startFail`) establishes this, and no
operation clears the bits afterwards. -/
theorem closed_error_sets_shutdown {s : Sock} (h : Reachable s)
    (hs : s.state = StateEnum.CLOSED ∨ s.state = StateEnum.ERROR) :
    s.shutdownFlags.shutRead = true ∧ s.shutdownFlags.shutWrite = true := by
  have hinv : StateFlagsOK s := by
    clear hs
    induction h with
    | init addr => intro hc; rcases hc with hc | hc <;> simp [initSock] at hc
    | fromFd addr => intro hc; rcases hc with hc | hc <;> simp [fdSock, initSock] at hc
    | step hr hstep ih => exact (step_preserves hstep).ok ih
  exact hinv hs

/-- C1 witness: the state obtained by `closeNow` on a fresh socket is CLOSED
and carries both shutdown bits. -/
theorem closed_error_sets_shutdown_witness :
    ((closeNow (initSock [])).1.state = StateEnum.CLOSED ∨
        (closeNow (initSock [])).1.state = StateEnum.ERROR) ∧
      ((closeNow (initSock [])).1.shutdownFlags.shutRead = true ∧
        (closeNow (initSock [])).1.shutdownFlags.shutWrite = true) :=
  ⟨Or.inl rfl,
   closed_error_sets_shutdown
     (Reachable.step (Reachable.init []) (Step.closeNow (initSock [])))
     (Or.inl rfl)⟩

/-- C2: The shutdownFlags set is monotone: across any sequence of public
operations and internal event handlers, once any of SHUT_READ, SHUT_WRITE
or SHUT_WRITE_PENDING has been set it is never cleared (every update site
or-s bits in via `ShutdownFlags.orBits`; the only plain assignment is the
zero of `initSock`). -/
theorem shutdownFlags_monotone {s t : Sock} (h : Relation.ReflTransGen Step s t) :
    flagsLe s.shutdownFlags t.shutdownFlags := by
  induction h with
  | refl => exact flagsLe_refl _
  | tail hab hbc ih => exact flagsLe_trans ih (step_preserves hbc).mono

/-- C2 witness: the SHUT_WRITE_PENDING bit set by `shutdownWrite` on a fresh
socket survives a subsequent `closeNow`. -/
theorem shutdownFlags_monotone_witness :
    flagsLe (shutdownWrite (initSock [])).1.shutdownFlags
      (closeNow (shutdownWrite (initSock [])).1).1.shutdownFlags :=
  shutdownFlags_monotone
    (Relation.ReflTransGen.tail Relation.ReflTransGen.refl
      (Step.closeNow (shutdownWrite (initSock [])).1))

/-! ## writeChain and the SSL accessors -/

theorem writeChainImpl_eq_filter (chain : List (List Nat)) :
    writeChainImpl chain = chain.filter (fun b => !b.isEmpty) := by
  induction chain with
  | nil => rfl
  | cons b rest ih =>
    by_cases hb : b.length ≠ 0
    · have hne : (!b.isEmpty) = true := by
        simp [List.isEmpty_iff, ← List.length_eq_zero]; omega
      simp [writeChainImpl, hb, List.filter_cons, hne, ih]
    · have hbnil : b = [] := List.length_eq_zero.mp (by omega)
      subst hbnil
      simp [writeChainImpl, ih]

theorem writeChainImpl_flatten (chain : List (List Nat)) :
    (writeChainImpl chain).flatten = chain.flatten := by
  induction chain with
  | nil => rfl
  | cons b rest ih =>
    by_cases hb : b.length ≠ 0
    · simp [writeChainImpl, hb, ih]
    · have hbnil : b = [] := List.length_eq_zero.mp (by omega)
      subst hbnil
      simp [writeChainImpl, ih]

/-- C8: For every buffer chain, `writeChainImpl` materialises one iovec per
chain element but advances the output index only for elements of non-zero
length, so the iovec prefix handed to `writeImpl` is exactly the non-empty
buffers in chain order: the byte sequence submitted for the wire equals a
writev over the non-empty ranges, and the count passed to `writeImpl` is
the number of non-empty buffers. -/
theorem writeChain_writev_equiv (chain : List (List Nat)) :
    writeChainImpl chain = chain.filter (fun b => !b.isEmpty) ∧
      (writeChainImpl chain).flatten = chain.flatten ∧
      (writeChainImpl chain).length = (chain.filter (fun b => !b.isEmpty)).length :=
  ⟨writeChainImpl_eq_filter chain, writeChainImpl_flatten chain,
   by rw [writeChainImpl_eq_filter chain]⟩

/-- C10: When ClientHello parsing was never enabled, `getSSLClientCiphers`,
`getSSLClientComprMethods` and `getSSLClientExts` all return the empty
string; `getSSLClientCiphers` is also empty when parsing is enabled but
the parsed cipher-suite list is empty. -/
theorem ssl_accessors_empty_without_parsing (suites ms es : List Nat)
    (lookup : Nat → Option (List Char)) :
    getSSLClientCiphers false suites lookup = [] ∧
      getSSLClientComprMethods false ms = [] ∧
      getSSLClientExts false es = [] ∧
      getSSLClientCiphers true [] lookup = [] := by
  refine ⟨?_, rfl, rfl, rfl⟩
  simp [getSSLClientCiphers]

theorem foldl_stream_eq (items : List (List Char)) (acc : List Char) (h : items ≠ []) :
    items.foldl (fun a x => a ++ x ++ [':']) acc = acc ++ joinColon items ++ [':'] := by
  induction items generalizing acc with
  | nil => exact absurd rfl h
  | cons x rest ih =>
    cases rest with
    | nil => simp [joinColon]
    | cons y t =>
      rw [List.foldl_cons, ih (acc ++ x ++ [':']) (by simp)]
      simp [joinColon]

/-- C9: `getSSLClientCiphers` renders each parsed ClientHello cipher-suite
code the server's TLS method does not recognize as a zero-padded
4-lowercase-hex-digit string (code 0xABCD yields "abcd"), renders
recognized codes by their OpenSSL cipher name, joins the entries in the
client's advertised order separated by ':', and erases the final ':' so
there is no trailing separator. -/
theorem getSSLClientCiphers_spec (suites : List Nat)
    (lookup : Nat → Option (List Char)) (h : suites ≠ []) :
    getSSLClientCiphers true suites lookup =
        joinColon (suites.map (renderCipher lookup)) ∧
      (∀ c, lookup c = none → renderCipher lookup c = toHex4 c) ∧
      toHex4 0xABCD = "abcd".data := by
  refine ⟨?_, fun c hc => by simp [renderCipher, hc], by decide⟩
  unfold getSSLClientCiphers
  rw [if_neg (by simp [h])]
  have hmap : suites.foldl (fun acc c => acc ++ renderCipher lookup c ++ [':'])
      ([] : List Char) =
      (suites.map (renderCipher lookup)).foldl (fun a x => a ++ x ++ [':']) [] := by
    rw [List.foldl_map]
  rw [hmap, foldl_stream_eq _ [] (by simp [h])]
  simp [List.dropLast_concat]

/-! ## performWrite -/

theorem sum_take_le (l : List Nat) (k : Nat) : (l.take k).sum ≤ l.sum := by
  induction l generalizing k with
  | nil => simp
  | cons x xs ih =>
    cases k with
    | zero => simp
    | succ m =>
      simp only [List.take_succ_cons, List.sum_cons]
      exact Nat.add_le_add_left (ih m) x

theorem writtenSplit_le (l : List Nat) (b : Nat) : (writtenSplit l b).1 ≤ l.length := by
  induction l generalizing b with
  | nil => simp [writtenSplit]
  | cons x xs ih =>
    by_cases h : b < x
    · simp [writtenSplit, h]
    · simp only [writtenSplit, if_neg h, List.length_cons]
      exact Nat.succ_le_succ (ih _)

theorem writtenSplit_spec (vec : List Nat) (n : Nat) (hn : n ≤ vec.sum) :
    (vec.take (writtenSplit vec n).1).sum ≤ n ∧
      ((writtenSplit vec n).1 = vec.length ∨
        n < (vec.take ((writtenSplit vec n).1 + 1)).sum) ∧
      (writtenSplit vec n).2 = n - (vec.take (writtenSplit vec n).1).sum := by
  induction vec generalizing n with
  | nil =>
    simp only [List.sum_nil, Nat.le_zero] at hn
    simp [writtenSplit, hn]
  | cons l ls ih =>
    by_cases h : n < l
    · refine ⟨by simp [writtenSplit, h], Or.inr ?_, by simp [writtenSplit, h]⟩
      simp [writtenSplit, h, List.take_succ_cons]
    · have hl : l ≤ n := Nat.le_of_not_lt h
      have hn2 : n - l ≤ ls.sum := by
        simp only [List.sum_cons] at hn; omega
      obtain ⟨ih1, ih2, ih3⟩ := ih (n - l) hn2
      simp only [writtenSplit, if_neg h, List.take_succ_cons, List.sum_cons,
        List.length_cons]
      refine ⟨by omega, ?_, by omega⟩
      rcases ih2 with h2 | h2
      · exact Or.inl (by omega)
      · exact Or.inr (by omega)

/-- C4: For every `performWrite` call in which sendmsg returns a byte count
n (never more than it was handed): at most IOV_MAX iovec entries are
passed to sendmsg, `appBytesWritten_` grows by exactly n, the function
returns n, `countWritten` is the number of leading iovecs wholly covered
by n (all of them, or else the next iovec is not wholly covered), and
`partialWritten` is the part of n falling inside the first not-wholly
covered iovec — 0 when n covers whole iovecs exactly. -/
theorem performWrite_success_spec (vec : List Nat) (flags : WriteFlags) (app n : Nat)
    (hn : n ≤ (vec.take IOV_MAX).sum) :
    (performWrite vec flags app (.written n)).iovCount ≤ IOV_MAX ∧
      (performWrite vec flags app (.written n)).appBytesWritten = app + n ∧
      (performWrite vec flags app (.written n)).ret = (n : Int) ∧
      (performWrite vec flags app (.written n)).countWritten ≤ vec.length ∧
      (vec.take (performWrite vec flags app (.written n)).countWritten).sum ≤ n ∧
      ((performWrite vec flags app (.written n)).countWritten = vec.length ∨
        n < (vec.take ((performWrite vec flags app (.written n)).countWritten + 1)).sum) ∧
      (performWrite vec flags app (.written n)).partialWritten =
        n - (vec.take (performWrite vec flags app (.written n)).countWritten).sum := by
  have hsum : n ≤ vec.sum := le_trans hn (sum_take_le vec IOV_MAX)
  obtain ⟨h1, h2, h3⟩ := writtenSplit_spec vec n hsum
  exact ⟨Nat.min_le_right _ _, rfl, rfl, writtenSplit_le vec n, h1, h2, h3⟩

/-- C4 witness: with iovec lengths [8, 8, 8] and sendmsg reporting 20 bytes
written, the walk yields two whole ops and a 4-byte partial remainder. -/
theorem performWrite_success_spec_witness :
    (20 ≤ (([8, 8, 8] : List Nat).take IOV_MAX).sum) ∧
      (performWrite [8, 8, 8] ⟨false, false⟩ 0 (.written 20)).partialWritten =
        20 - (([8, 8, 8] : List Nat).take
          (performWrite [8, 8, 8] ⟨false, false⟩ 0 (.written 20)).countWritten).sum :=
  ⟨by decide,
   (performWrite_success_spec [8, 8, 8] ⟨false, false⟩ 0 20 (by decide)).2.2.2.2.2.2⟩

/-! ## consume and the handleWrite loop -/

theorem updateNth_id_fun (l : List Iovec) (i : Nat) (f : Iovec → Iovec)
    (hf : ∀ x, f x = x) : updateNth l i f = l := by
  induction l generalizing i with
  | nil => rfl
  | cons x xs ih =>
    cases i with
    | zero => simp [updateNth, hf]
    | succ m => simp [updateNth, ih]

theorem consume_zero (r : WriteRequest) : r.consume 0 0 0 = r := by
  cases r
  simp [WriteRequest.consume, updateNth_id_fun _ _ _ (fun x => rfl)]

theorem popFinishedRequest_queue (s : Sock) (tail : List WriteRequest) (napp : Nat) :
    (popFinishedRequest s tail napp).writeQueue = tail := by
  unfold popFinishedRequest
  dsimp only
  repeat' split
  all_goals rfl

/-- C5: When sendmsg fails with errno EAGAIN, `performWrite` returns 0 with
countWritten = 0 and partialWritten = 0, distinguished from the -1 error
return; inside `handleWrite` this takes the partial-progress branch whose
`consume(0, 0, 0)` advances nothing — opIndex, the iovec bases and
lengths, and bytesWritten are all unmodified, so the head WriteRequest is
unchanged — and Write interest remains (or becomes) registered. -/
theorem eagain_no_progress (vec : List Nat) (flags : WriteFlags) (app : Nat)
    (s : Sock) (req : WriteRequest) (tail : List WriteRequest)
    (hq : s.writeQueue = req :: tail) (hwf : req.opIndex < req.writeOps.length) :
    performWrite vec flags app .eagain =
        ⟨min vec.length IOV_MAX, flags.cork, flags.eor, 0, 0, 0, app⟩ ∧
      (performWrite vec flags app .err).ret = -1 ∧
      req.consume 0 0 0 = req ∧
      (handleWriteLoop s [.eagain]).1.writeQueue = s.writeQueue ∧
      (handleWriteLoop s [.eagain]).1.eventFlags.write = true := by
  have hgop : ¬((0 : Nat) = req.getOpCount) := by
    unfold WriteRequest.getOpCount WriteRequest.opCount
    omega
  have hred : (handleWriteLoop s [.eagain]).1 =
      partialProgress s (req.consume 0 0 0) tail s.appBytesWritten := by
    rw [handleWriteLoop, hq]
    dsimp only [performWrite]
    rw [if_neg (by decide), if_neg hgop]
    rfl
  refine ⟨rfl, rfl, consume_zero req, ?_, ?_⟩
  · rw [hred]
    simp [partialProgress, consume_zero, hq]
  · rw [hred]
    rfl

/-- C5 witness: on the sample queued socket an EAGAIN round through the
handleWrite loop leaves the write queue untouched. -/
theorem eagain_no_progress_witness :
    sampleSock.writeQueue = sampleWriteRequest :: [] ∧
      sampleWriteRequest.opIndex < sampleWriteRequest.writeOps.length ∧
      (handleWriteLoop sampleSock [.eagain]).1.writeQueue = sampleSock.writeQueue :=
  ⟨rfl, by decide,
   (eagain_no_progress [8, 8] ⟨false, false⟩ 0 sampleSock sampleWriteRequest []
     rfl (by decide)).2.2.2.1⟩

/-- C6: Assertion validity of `WriteRequest::consume` at its call sites.
At writeImpl's partial-immediate-write site the fresh request holding the
unwritten suffix satisfies `consumeOk _ 0` (its op array is non-empty
because not all iovecs were covered); in handleWrite's partial-progress
branch any `countWritten` below the remaining op count keeps
`opIndex_ < opCount_`; the walk never reports more whole ops than remain;
and the all-ops-drained case is handled by handleWrite's completion
branch, which pops the request (the queue becomes the tail) without
calling `consume`. -/
theorem consume_assert_valid (vec : List Iovec) (cb : Option Nat) (flags : WriteFlags)
    (n m : Nat) (s : Sock) (req : WriteRequest) (tail : List WriteRequest)
    (hq : s.writeQueue = req :: tail) (hwf : req.opIndex < req.writeOps.length) :
    ((writtenSplit (vec.map Iovec.len) n).1 ≠ vec.length →
        WriteRequest.consumeOk
          ⟨cb, vec.drop (writtenSplit (vec.map Iovec.len) n).1, 0, 0, flags⟩ 0) ∧
      (∀ cw, cw < req.getOpCount → WriteRequest.consumeOk req cw) ∧
      ((writtenSplit (req.getOps.map Iovec.len) m).1 ≤ req.getOpCount) ∧
      ((writtenSplit (req.getOps.map Iovec.len) m).1 = req.getOpCount →
        (handleWriteLoop s [.written m]).1.writeQueue = tail) := by
  refine ⟨?_, ?_, ?_, ?_⟩
  · intro hne
    have hle := writtenSplit_le (vec.map Iovec.len) n
    rw [List.length_map] at hle
    unfold WriteRequest.consumeOk
    simp only [List.length_drop]
    omega
  · intro cw hcw
    unfold WriteRequest.getOpCount WriteRequest.opCount at hcw
    unfold WriteRequest.consumeOk
    omega
  · have hle := writtenSplit_le (req.getOps.map Iovec.len) m
    simp only [List.length_map, WriteRequest.getOps, List.length_drop] at hle
    simp only [WriteRequest.getOpCount, WriteRequest.opCount, WriteRequest.getOps]
    omega
  · intro hcompl
    rw [handleWriteLoop, hq]
    dsimp only [performWrite]
    rw [if_neg (by omega), if_pos hcompl]
    rw [handleWriteLoop]
    simp [popFinishedRequest_queue]

/-- C6 witness: on the sample queued socket, a sendmsg count of 16 covers
both remaining iovecs exactly; the completion branch pops the request and
the queue empties. -/
theorem consume_assert_valid_witness :
    sampleSock.writeQueue = sampleWriteRequest :: [] ∧
      sampleWriteRequest.opIndex < sampleWriteRequest.writeOps.length ∧
      ((writtenSplit (sampleWriteRequest.getOps.map Iovec.len) 16).1 =
          sampleWriteRequest.getOpCount →
        (handleWriteLoop sampleSock [.written 16]).1.writeQueue = []) :=
  ⟨rfl, by decide,
   (consume_assert_valid [⟨0, 8⟩] none ⟨false, false⟩ 4 16 sampleSock
     sampleWriteRequest [] rfl (by decide)).2.2.2⟩

/-- C9 witness: the sample cipher list `{0x009C, 0xC02F, 0xABCD}` is
non-empty, and `getSSLClientCiphers` on it equals the ':'-join of the two
names and the hex rendering of the unknown code. -/
theorem getSSLClientCiphers_spec_witness :
    ([0x009C, 0xC02F, 0xABCD] : List Nat) ≠ [] ∧
      getSSLClientCiphers true [0x009C, 0xC02F, 0xABCD] sampleCipherNames =
        joinColon (([0x009C, 0xC02F, 0xABCD] : List Nat).map
          (renderCipher sampleCipherNames)) :=
  ⟨by decide,
   (getSSLClientCiphers_spec [0x009C, 0xC02F, 0xABCD] sampleCipherNames (by decide)).1⟩

/-! ## First-fail policy and setReadCallback after SHUT_READ -/

theorem filter_write_events_filterMap (rest : List WriteRequest)
    (ex : TTransportException) :
    (rest.filterMap (fun r => r.callback.map
        (fun cb => Event.writeError cb r.bytesWritten ex))).filter isWriteCallbackEvent =
      rest.filterMap (fun r => r.callback.map
        (fun cb => Event.writeError cb r.bytesWritten ex)) := by
  rw [List.filter_eq_self]
  intro e he
  obtain ⟨r, _, hr⟩ := List.mem_filterMap.mp he
  obtain ⟨cb, _, he2⟩ := Option.map_eq_some'.mp hr
  rw [← he2]
  rfl

/-- C3: First-fail policy: when a queued write fails, `failWrite` pops the
head WriteRequest and invokes its callback once with
`writeError(bytesWritten, ex)` carrying the accumulated byte count and the
actual error; every other WriteRequest remaining in the queue has its
callback invoked exactly once (one event per queued request, in order)
with a `writeError` carrying an INTERNAL_ERROR whose message contains
"socket closing after error"; no other write-callback event is produced. -/
theorem failWrite_first_fail (s : Sock) (ex : TTransportException)
    (req : WriteRequest) (rest : List WriteRequest)
    (hq : s.writeQueue = req :: rest) :
    (failWrite s ex).2.filter isWriteCallbackEvent =
        (req.callback.map (fun cb => Event.writeError cb req.bytesWritten ex)).toList ++
          rest.filterMap (fun r => r.callback.map
            (fun cb => Event.writeError cb r.bytesWritten
              ⟨.INTERNAL_ERROR, withAddr s closingAfterErrorMsg⟩)) ∧
      closingAfterErrorMsg <:+: withAddr s closingAfterErrorMsg := by
  refine ⟨?_, ⟨[], s.addrSuffix, by simp [withAddr]⟩⟩
  unfold failWrite startFail
  dsimp only
  rw [hq]
  unfold finishFail failAllWrites withAddr
  dsimp only
  rcases req.callback with _ | cb <;>
    rcases s.connectCallback with _ | cc <;>
      rcases s.readCallback with _ | rc <;>
        simp [isWriteCallbackEvent, List.filter_append, filter_write_events_filterMap,
          withAddr]

/-- C3 witness: failing a two-request queue with a timeout: the head's
callback sees the timeout with its accumulated bytes, the second request's
callback sees the internal closing-after-error exception. -/
theorem failWrite_first_fail_witness :
    sampleSock2.writeQueue = sampleWriteRequest :: [sampleWriteRequest2] ∧
      (failWrite sampleSock2 ⟨.TIMED_OUT, "write timed out".data⟩).2.filter
          isWriteCallbackEvent =
        (sampleWriteRequest.callback.map (fun cb =>
          Event.writeError cb sampleWriteRequest.bytesWritten
            ⟨.TIMED_OUT, "write timed out".data⟩)).toList ++
          [sampleWriteRequest2].filterMap (fun r => r.callback.map
            (fun cb => Event.writeError cb r.bytesWritten
              ⟨.INTERNAL_ERROR, withAddr sampleSock2 closingAfterErrorMsg⟩)) :=
  ⟨rfl,
   (failWrite_first_fail sampleSock2 ⟨.TIMED_OUT, "write timed out".data⟩
     sampleWriteRequest [sampleWriteRequest2] rfl).1⟩

/-- C7: After SHUT_READ is set (with the read callback already cleared, as
it always is once reads are shut down), `setReadCallback(nullptr)` is
accepted and leaves the stored read callback cleared without reporting any
error, whereas `setReadCallback` with any non-null callback does not
install it and reports `readError` with the NOT_OPEN exception to the
passed callback as the first event. -/
theorem setReadCallback_after_shut_read (s : Sock) (c : Nat)
    (hshut : s.shutdownFlags.shutRead = true) (hrc : s.readCallback = none) :
    ((setReadCallback s none).1.readCallback = none ∧
        (setReadCallback s none).2 = []) ∧
      ((setReadCallback s (some c)).1.readCallback = none ∧
        (setReadCallback s (some c)).2.head? =
          some (Event.readError c invalidReadEx) ∧
        invalidReadEx.kind = ErrKind.NOT_OPEN) := by
  have hnone : setReadCallback s none = (s, []) := by
    unfold setReadCallback
    rw [if_pos hrc.symm]
  have hsome1 : setReadCallback s (some c) = invalidStateRead s (some c) := by
    unfold setReadCallback
    rw [if_neg (by simp [hrc]), if_pos hshut]
  refine ⟨⟨by rw [hnone]; exact hrc, by rw [hnone]⟩, ?_, ?_, rfl⟩
  · rw [hsome1, invalidStateRead_fst]
    split
    · exact hrc
    · rfl
  · rw [hsome1]
    unfold invalidStateRead
    dsimp only
    split <;> rfl

/-- C7 witness: on a read-shutdown socket, `setReadCallback(nullptr)` is a
silent no-op and `setReadCallback(7)` reports NOT_OPEN to callback 7
without installing it. -/
theorem setReadCallback_after_shut_read_witness :
    sampleShutReadSock.shutdownFlags.shutRead = true ∧
      sampleShutReadSock.readCallback = none ∧
      ((setReadCallback sampleShutReadSock (some 7)).1.readCallback = none ∧
        (setReadCallback sampleShutReadSock (some 7)).2.head? =
          some (Event.readError 7 invalidReadEx)) :=
  ⟨rfl, rfl,
   (setReadCallback_after_shut_read sampleShutReadSock 7 rfl rfl).2.1,
   (setReadCallback_after_shut_read sampleShutReadSock 7 rfl rfl).2.2.1⟩

end TAsyncSocket
